import Mathlib

/-!
# Verification of the AQI computation in aqi-mqtt

Shallow embedding of the AQI calculation from `main.go` of the aqi-mqtt
daemon. Go `float64` arithmetic is modelled by exact rational arithmetic
(`ℚ`); every numeric operation the embedded code performs on the inputs of
interest is exact in IEEE double precision as well (the breakpoint tables
and the decisive inputs are dyadic or small integers), so the rational
model agrees with the compiled program on all concrete evaluations below.
-/

/-- AQI breakpoint structure (`AQIBreakpoint` in main.go): one tier of a
pollutant's breakpoint table. -/
structure AQIBreakpoint where
  ConcLow : ℚ
  ConcHigh : ℚ
  AQILow : ℤ
  AQIHigh : ℤ
deriving DecidableEq, Repr

/-- PM2.5 AQI breakpoints (`pm25Breakpoints` in main.go). -/
def pm25Breakpoints : List AQIBreakpoint :=
  [⟨0, 12, 0, 50⟩,
   ⟨12.1, 35.4, 51, 100⟩,
   ⟨35.5, 55.4, 101, 150⟩,
   ⟨55.5, 150.4, 151, 200⟩,
   ⟨150.5, 250.4, 201, 300⟩,
   ⟨250.5, 350.4, 301, 400⟩,
   ⟨350.5, 500.4, 401, 500⟩]

/-- PM10 AQI breakpoints (`pm10Breakpoints` in main.go). -/
def pm10Breakpoints : List AQIBreakpoint :=
  [⟨0, 54, 0, 50⟩,
   ⟨55, 154, 51, 100⟩,
   ⟨155, 254, 101, 150⟩,
   ⟨255, 354, 151, 200⟩,
   ⟨355, 424, 201, 300⟩,
   ⟨425, 504, 301, 400⟩,
   ⟨505, 604, 401, 500⟩]

/-- Go's `math.Round`: round to nearest integer, ties away from zero. -/
def mathRound (x : ℚ) : ℤ :=
  if 0 ≤ x then ⌊x + 1/2⌋ else -⌊-x + 1/2⌋

/-- The truncation step of `calculateAQI` (main.go line 93):
`concentration = math.Floor(concentration*10) / 10`. -/
def trunc (concentration : ℚ) : ℚ :=
  (⌊concentration * 10⌋ : ℚ) / 10

/-- The EPA linear-interpolation formula applied inside the loop of
`calculateAQI` (main.go lines 98-99). -/
def interp (bp : AQIBreakpoint) (concentration : ℚ) : ℚ :=
  ((bp.AQIHigh - bp.AQILow : ℤ) : ℚ) / (bp.ConcHigh - bp.ConcLow)
    * (concentration - bp.ConcLow) + (bp.AQILow : ℤ)

/-- The `for _, bp := range breakpoints` loop of `calculateAQI`
(main.go lines 95-105): return the rounded interpolation at the first
tier containing the (already truncated) concentration, else 500. -/
def aqiLoop (concentration : ℚ) : List AQIBreakpoint → ℤ
  | [] => 500
  | bp :: rest =>
    if bp.ConcLow ≤ concentration ∧ concentration ≤ bp.ConcHigh then
      mathRound (interp bp concentration)
    else
      aqiLoop concentration rest

/-- `calculateAQI` from main.go: truncate to one decimal place, then scan
the breakpoint table. -/
def calculateAQI (concentration : ℚ) (breakpoints : List AQIBreakpoint) : ℤ :=
  aqiLoop (trunc concentration) breakpoints

/-- `computeAQI` from main.go: AQI of PM2.5 and PM10, returning the higher
of the two sub-indices (written with the same conditional as the source). -/
def computeAQI (pm25 pm10 : ℚ) : ℤ :=
  let aqiPM25 := calculateAQI pm25 pm25Breakpoints
  let aqiPM10 := calculateAQI pm10 pm10Breakpoints
  if aqiPM25 > aqiPM10 then aqiPM25 else aqiPM10

/-- First tier of a table whose closed concentration range contains the
given (truncated) concentration; mirrors the loop's search so that the
loop can be characterised through it. -/
def matchingTier (concentration : ℚ) : List AQIBreakpoint → Option AQIBreakpoint
  | [] => none
  | bp :: rest =>
    if bp.ConcLow ≤ concentration ∧ concentration ≤ bp.ConcHigh then
      some bp
    else
      matchingTier concentration rest

/-- Round to nearest integer with ties to the even integer
(the rounding mode the specification ascribes to the final step). -/
def roundHalfEven (x : ℚ) : ℤ :=
  if x - ⌊x⌋ < 1/2 then ⌊x⌋
  else if 1/2 < x - ⌊x⌋ then ⌊x⌋ + 1
  else if ⌊x⌋ % 2 = 0 then ⌊x⌋ else ⌊x⌋ + 1

/-! ## General lemmas about the embedded code -/

/-- The loop returns the rounded interpolation at the first matching tier,
and 500 when no tier matches. -/
lemma aqiLoop_eq_matchingTier (c : ℚ) (l : List AQIBreakpoint) :
    aqiLoop c l =
      match matchingTier c l with
      | some bp => mathRound (interp bp c)
      | none => 500 := by
  induction l with
  | nil => rfl
  | cons bp rest ih =>
    by_cases h : bp.ConcLow ≤ c ∧ c ≤ bp.ConcHigh
    · simp only [aqiLoop, matchingTier, if_pos h]
    · simp only [aqiLoop, matchingTier, if_neg h, ih]

/-- When no tier's closed range contains the concentration, the loop falls
through and returns 500. -/
lemma aqiLoop_of_forall_not (c : ℚ) (l : List AQIBreakpoint)
    (h : ∀ bp ∈ l, ¬(bp.ConcLow ≤ c ∧ c ≤ bp.ConcHigh)) :
    aqiLoop c l = 500 := by
  induction l with
  | nil => rfl
  | cons bp rest ih =>
    simp only [aqiLoop, if_neg (h bp (List.mem_cons_self bp rest))]
    exact ih fun b hb => h b (List.mem_cons_of_mem bp hb)

/-- Lower bound for `mathRound` on nonnegative arguments. -/
lemma le_mathRound (n : ℤ) (x : ℚ) (h0 : 0 ≤ x) (h : (n : ℚ) ≤ x) :
    n ≤ mathRound x := by
  simp only [mathRound, if_pos h0]
  exact Int.le_floor.mpr (by linarith)

/-- Upper bound for `mathRound` on nonnegative arguments. -/
lemma mathRound_le (n : ℤ) (x : ℚ) (h0 : 0 ≤ x) (h : x ≤ (n : ℚ)) :
    mathRound x ≤ n := by
  simp only [mathRound, if_pos h0]
  have hlt : ⌊x + 1/2⌋ < n + 1 := Int.floor_lt.mpr (by push_cast; linarith)
  omega

/-- `mathRound` fixes integers. -/
lemma mathRound_intCast (n : ℤ) : mathRound (n : ℚ) = n := by
  rcases le_or_lt 0 (n : ℚ) with h | h
  · simp only [mathRound, if_pos h]
    rw [Int.floor_int_add]
    norm_num
  · simp only [mathRound, if_neg (not_le.mpr h)]
    rw [show (-(n : ℚ)) = ((-n : ℤ) : ℚ) by push_cast; ring, Int.floor_int_add]
    norm_num

/-- Inside its tier, the interpolated value lies between the tier's AQI
bounds. -/
lemma interp_bounds (bp : AQIBreakpoint) (c : ℚ)
    (hcc : bp.ConcLow < bp.ConcHigh) (hII : bp.AQILow ≤ bp.AQIHigh)
    (h1 : bp.ConcLow ≤ c) (h2 : c ≤ bp.ConcHigh) :
    (bp.AQILow : ℚ) ≤ interp bp c ∧ interp bp c ≤ (bp.AQIHigh : ℚ) := by
  have hd : (0 : ℚ) < bp.ConcHigh - bp.ConcLow := by linarith
  have hcast : (bp.AQILow : ℚ) ≤ (bp.AQIHigh : ℚ) := by exact_mod_cast hII
  have hslope : (0 : ℚ) ≤ ((bp.AQIHigh - bp.AQILow : ℤ) : ℚ) / (bp.ConcHigh - bp.ConcLow) := by
    apply div_nonneg _ hd.le
    push_cast
    linarith
  constructor
  · have : (0 : ℚ) ≤ ((bp.AQIHigh - bp.AQILow : ℤ) : ℚ) / (bp.ConcHigh - bp.ConcLow)
        * (c - bp.ConcLow) := mul_nonneg hslope (by linarith)
    simp only [interp]
    linarith
  · have hm : ((bp.AQIHigh - bp.AQILow : ℤ) : ℚ) / (bp.ConcHigh - bp.ConcLow)
        * (c - bp.ConcLow)
        ≤ ((bp.AQIHigh - bp.AQILow : ℤ) : ℚ) / (bp.ConcHigh - bp.ConcLow)
        * (bp.ConcHigh - bp.ConcLow) :=
      mul_le_mul_of_nonneg_left (by linarith) hslope
    rw [div_mul_cancel₀ _ hd.ne'] at hm
    simp only [interp]
    push_cast at hm ⊢
    linarith

/-- Validity of a breakpoint table: AQI bounds in `[0, 500]`, ordered, and
a nonempty concentration range per tier. -/
def validTable (l : List AQIBreakpoint) : Prop :=
  ∀ bp ∈ l, 0 ≤ bp.AQILow ∧ bp.AQILow ≤ bp.AQIHigh ∧ bp.AQIHigh ≤ 500 ∧
    bp.ConcLow < bp.ConcHigh

/-- On a valid table, the loop's result is in `[0, 500]`. -/
lemma aqiLoop_bounds (c : ℚ) (l : List AQIBreakpoint) (hv : validTable l) :
    0 ≤ aqiLoop c l ∧ aqiLoop c l ≤ 500 := by
  induction l with
  | nil => exact ⟨by norm_num [aqiLoop], by norm_num [aqiLoop]⟩
  | cons bp rest ih =>
    rcases hv bp (List.mem_cons_self bp rest) with ⟨hI0, hII, hI5, hcc⟩
    by_cases h : bp.ConcLow ≤ c ∧ c ≤ bp.ConcHigh
    · simp only [aqiLoop, if_pos h]
      rcases interp_bounds bp c hcc hII h.1 h.2 with ⟨hlo, hhi⟩
      have hx0 : (0 : ℚ) ≤ interp bp c := le_trans (by exact_mod_cast hI0) hlo
      constructor
      · exact le_trans hI0 (le_mathRound bp.AQILow _ hx0 hlo)
      · exact le_trans (mathRound_le bp.AQIHigh _ hx0 hhi) hI5
    · simp only [aqiLoop, if_neg h]
      exact ih fun b hb => hv b (List.mem_cons_of_mem bp hb)

/-- Truncation never increases the concentration. -/
lemma trunc_le (c : ℚ) : trunc c ≤ c := by
  have h : (⌊c * 10⌋ : ℚ) ≤ c * 10 := Int.floor_le _
  simp only [trunc]
  linarith

/-! ## Claims -/

/-- Claim C1: the spec (and the repository's test TestPM10BreakpointGap)
says a truncated PM10 concentration strictly between adjacent tiers, such
as 54.5 between tier 1's ConcHigh 54 and tier 2's ConcLow 55, is assigned
to the lower tier (value 50). The code instead falls through the tier scan
and returns the saturation value 500. -/
theorem calculateAQI_pm10_gap_returns_500 :
    calculateAQI 54.5 pm10Breakpoints = 500 := by
  have ht : trunc 54.5 = 109/2 := by norm_num [trunc]
  simp only [calculateAQI, ht, pm10Breakpoints, aqiLoop]
  norm_num

/-- Claim C2: the spec says the sub-index is non-decreasing in the
concentration for a fixed table. The code violates this: PM10 54.5 ≤ 55,
yet the sub-index at 55 (which is 51) is smaller than the sub-index at
54.5 (which is 500 by gap fall-through). -/
theorem calculateAQI_pm10_not_monotone :
    (54.5 : ℚ) ≤ 55 ∧
    calculateAQI 55 pm10Breakpoints < calculateAQI 54.5 pm10Breakpoints := by
  refine ⟨by norm_num, ?_⟩
  have h1 : calculateAQI 54.5 pm10Breakpoints = 500 := by
    have ht : trunc 54.5 = 109/2 := by norm_num [trunc]
    simp only [calculateAQI, ht, pm10Breakpoints, aqiLoop]
    norm_num
  have h2 : calculateAQI 55 pm10Breakpoints = 51 := by
    have ht : trunc 55 = 55 := by norm_num [trunc]
    simp only [calculateAQI, ht, pm10Breakpoints, aqiLoop]
    norm_num [interp, mathRound]
  rw [h1, h2]
  norm_num

/-- Claim C3 counterexample: the final rounding is not round-half-to-even.
At PM10 554.5 the truncated concentration matches tier ⟨505, 604, 401, 500⟩,
the interpolation gives 450.5, the code returns 451 (half away from zero),
while round-half-to-even would give 450. -/
theorem calculateAQI_not_roundHalfEven :
    matchingTier (trunc 554.5) pm10Breakpoints = some ⟨505, 604, 401, 500⟩ ∧
    calculateAQI 554.5 pm10Breakpoints ≠
      roundHalfEven (interp ⟨505, 604, 401, 500⟩ (trunc 554.5)) := by
  have ht : trunc 554.5 = 1109/2 := by norm_num [trunc]
  constructor
  · simp only [ht, pm10Breakpoints, matchingTier]
    norm_num
  · have h1 : calculateAQI 554.5 pm10Breakpoints = 451 := by
      simp only [calculateAQI, ht, pm10Breakpoints, aqiLoop]
      norm_num [interp, mathRound]
    have h2 : interp ⟨505, 604, 401, 500⟩ (trunc 554.5) = 901/2 := by
      rw [ht]
      norm_num [interp]
    have h3 : roundHalfEven (901/2 : ℚ) = 450 := by
      norm_num [roundHalfEven]
    rw [h1, h2, h3]
    norm_num

/-- Claim C3 (amended): for every truncated concentration that matches a
tier, the returned integer is the linear-interpolation formula result
rounded to the nearest integer with ties away from zero (Go math.Round). -/
theorem calculateAQI_eq_mathRound_interp (c : ℚ) (table : List AQIBreakpoint)
    (bp : AQIBreakpoint) (h : matchingTier (trunc c) table = some bp) :
    calculateAQI c table = mathRound (interp bp (trunc c)) := by
  simp only [calculateAQI, aqiLoop_eq_matchingTier, h]

/-- Witness for the amended Claim C3 at PM2.5 = 35.7. -/
theorem calculateAQI_eq_mathRound_interp_witness :
    matchingTier (trunc 35.7) pm25Breakpoints = some ⟨35.5, 55.4, 101, 150⟩ ∧
    calculateAQI 35.7 pm25Breakpoints =
      mathRound (interp ⟨35.5, 55.4, 101, 150⟩ (trunc 35.7)) := by
  have hm : matchingTier (trunc 35.7) pm25Breakpoints
      = some ⟨35.5, 55.4, 101, 150⟩ := by
    have ht : trunc 35.7 = 357/10 := by norm_num [trunc]
    simp only [ht, pm25Breakpoints, matchingTier]
    norm_num
  exact ⟨hm, calculateAQI_eq_mathRound_interp 35.7 pm25Breakpoints _ hm⟩

/-- Claim C4: every PM2.5 concentration of at least 500.5 saturates to a
sub-index of exactly 500; the function is total and never fails. -/
theorem calculateAQI_pm25_saturates (c : ℚ) (h : 500.5 ≤ c) :
    calculateAQI c pm25Breakpoints = 500 := by
  have h10 : ((5005 : ℤ) : ℚ) ≤ c * 10 := by push_cast; linarith
  have hf : ((5005 : ℤ) : ℚ) ≤ (⌊c * 10⌋ : ℚ) := by
    exact_mod_cast Int.le_floor.mpr h10
  have ht : (500.5 : ℚ) ≤ trunc c := by
    simp only [trunc]
    push_cast at hf
    linarith
  simp only [calculateAQI]
  apply aqiLoop_of_forall_not
  intro bp hbp
  rintro ⟨-, h2⟩
  simp only [pm25Breakpoints, List.mem_cons, List.not_mem_nil, or_false] at hbp
  rcases hbp with rfl | rfl | rfl | rfl | rfl | rfl | rfl <;> norm_num at h2 <;> linarith

/-- Witness for Claim C4 at PM2.5 = 600. -/
theorem calculateAQI_pm25_saturates_witness :
    (500.5 : ℚ) ≤ 600 ∧ calculateAQI 600 pm25Breakpoints = 500 :=
  ⟨by norm_num, calculateAQI_pm25_saturates 600 (by norm_num)⟩

/-- Claim C5: computeAQI is the arithmetic maximum of the PM2.5 sub-index
and the PM10 sub-index, each computed against its own table. -/
theorem computeAQI_eq_max (a b : ℚ) :
    computeAQI a b
      = max (calculateAQI a pm25Breakpoints) (calculateAQI b pm10Breakpoints) := by
  simp only [computeAQI, max_def, gt_iff_lt]
  rcases le_or_lt (calculateAQI a pm25Breakpoints) (calculateAQI b pm10Breakpoints) with h | h
  · rw [if_neg (not_lt.mpr h), if_pos h]
  · rw [if_pos h, if_neg (not_le.mpr h)]

/-- Claim C6: evaluating the sub-index at a tier's upper concentration
bound ConcHigh yields exactly that tier's AQIHigh, for every tier of both
tables; in particular PM2.5 = 12.0 gives 50 and PM2.5 = 35.4 gives 100. -/
theorem calculateAQI_exact_at_concHigh :
    (∀ bp ∈ pm25Breakpoints, calculateAQI bp.ConcHigh pm25Breakpoints = bp.AQIHigh) ∧
    (∀ bp ∈ pm10Breakpoints, calculateAQI bp.ConcHigh pm10Breakpoints = bp.AQIHigh) := by
  constructor
  · intro bp hbp
    simp only [pm25Breakpoints, List.mem_cons, List.not_mem_nil, or_false] at hbp
    rcases hbp with rfl | rfl | rfl | rfl | rfl | rfl | rfl
    · show calculateAQI 12 pm25Breakpoints = 50
      have ht : trunc 12 = 12 := by norm_num [trunc]
      simp only [calculateAQI, ht, pm25Breakpoints, aqiLoop]
      norm_num [interp, mathRound]
    · show calculateAQI 35.4 pm25Breakpoints = 100
      have ht : trunc 35.4 = 354/10 := by norm_num [trunc]
      simp only [calculateAQI, ht, pm25Breakpoints, aqiLoop]
      norm_num [interp, mathRound]
    · show calculateAQI 55.4 pm25Breakpoints = 150
      have ht : trunc 55.4 = 554/10 := by norm_num [trunc]
      simp only [calculateAQI, ht, pm25Breakpoints, aqiLoop]
      norm_num [interp, mathRound]
    · show calculateAQI 150.4 pm25Breakpoints = 200
      have ht : trunc 150.4 = 1504/10 := by norm_num [trunc]
      simp only [calculateAQI, ht, pm25Breakpoints, aqiLoop]
      norm_num [interp, mathRound]
    · show calculateAQI 250.4 pm25Breakpoints = 300
      have ht : trunc 250.4 = 2504/10 := by norm_num [trunc]
      simp only [calculateAQI, ht, pm25Breakpoints, aqiLoop]
      norm_num [interp, mathRound]
    · show calculateAQI 350.4 pm25Breakpoints = 400
      have ht : trunc 350.4 = 3504/10 := by norm_num [trunc]
      simp only [calculateAQI, ht, pm25Breakpoints, aqiLoop]
      norm_num [interp, mathRound]
    · show calculateAQI 500.4 pm25Breakpoints = 500
      have ht : trunc 500.4 = 5004/10 := by norm_num [trunc]
      simp only [calculateAQI, ht, pm25Breakpoints, aqiLoop]
      norm_num [interp, mathRound]
  · intro bp hbp
    simp only [pm10Breakpoints, List.mem_cons, List.not_mem_nil, or_false] at hbp
    rcases hbp with rfl | rfl | rfl | rfl | rfl | rfl | rfl
    · show calculateAQI 54 pm10Breakpoints = 50
      have ht : trunc 54 = 54 := by norm_num [trunc]
      simp only [calculateAQI, ht, pm10Breakpoints, aqiLoop]
      norm_num [interp, mathRound]
    · show calculateAQI 154 pm10Breakpoints = 100
      have ht : trunc 154 = 154 := by norm_num [trunc]
      simp only [calculateAQI, ht, pm10Breakpoints, aqiLoop]
      norm_num [interp, mathRound]
    · show calculateAQI 254 pm10Breakpoints = 150
      have ht : trunc 254 = 254 := by norm_num [trunc]
      simp only [calculateAQI, ht, pm10Breakpoints, aqiLoop]
      norm_num [interp, mathRound]
    · show calculateAQI 354 pm10Breakpoints = 200
      have ht : trunc 354 = 354 := by norm_num [trunc]
      simp only [calculateAQI, ht, pm10Breakpoints, aqiLoop]
      norm_num [interp, mathRound]
    · show calculateAQI 424 pm10Breakpoints = 300
      have ht : trunc 424 = 424 := by norm_num [trunc]
      simp only [calculateAQI, ht, pm10Breakpoints, aqiLoop]
      norm_num [interp, mathRound]
    · show calculateAQI 504 pm10Breakpoints = 400
      have ht : trunc 504 = 504 := by norm_num [trunc]
      simp only [calculateAQI, ht, pm10Breakpoints, aqiLoop]
      norm_num [interp, mathRound]
    · show calculateAQI 604 pm10Breakpoints = 500
      have ht : trunc 604 = 604 := by norm_num [trunc]
      simp only [calculateAQI, ht, pm10Breakpoints, aqiLoop]
      norm_num [interp, mathRound]

/-- Witness for Claim C6 at the first PM2.5 tier: the sub-index at
ConcHigh 12 is exactly 50. -/
theorem calculateAQI_exact_at_concHigh_witness :
    (⟨0, 12, 0, 50⟩ : AQIBreakpoint) ∈ pm25Breakpoints ∧
    calculateAQI (⟨0, 12, 0, 50⟩ : AQIBreakpoint).ConcHigh pm25Breakpoints = 50 :=
  ⟨by simp [pm25Breakpoints],
   calculateAQI_exact_at_concHigh.1 ⟨0, 12, 0, 50⟩ (by simp [pm25Breakpoints])⟩

/-- Claim C7: the truncation applied before lookup is floor(c*10)/10, and
consequently computeAQI on PM2.5 = 35.49 and PM2.5 = 35.40 (same PM10
input) yields identical results. -/
theorem trunc_is_floor_and_3549_eq_3540 :
    (∀ c : ℚ, 0 ≤ c → trunc c = (⌊c * 10⌋ : ℚ) / 10) ∧
    ∀ b : ℚ, computeAQI 35.49 b = computeAQI 35.4 b := by
  constructor
  · intro c _
    rfl
  · intro b
    have h1 : trunc (35.49 : ℚ) = trunc (35.4 : ℚ) := by norm_num [trunc]
    simp only [computeAQI, calculateAQI, h1]

/-- Witness for Claim C7 at c = 35.49, PM10 = 0. -/
theorem trunc_is_floor_and_3549_eq_3540_witness :
    trunc 35.49 = (⌊(35.49 : ℚ) * 10⌋ : ℚ) / 10 ∧
    computeAQI 35.49 0 = computeAQI 35.4 0 :=
  ⟨trunc_is_floor_and_3549_eq_3540.1 35.49 (by norm_num),
   trunc_is_floor_and_3549_eq_3540.2 0⟩

/-- Claim C8: for all inputs (in particular all non-negative ones),
computeAQI returns an integer in the range [0, 500]. -/
theorem computeAQI_range (a b : ℚ) :
    0 ≤ computeAQI a b ∧ computeAQI a b ≤ 500 := by
  have h25 : validTable pm25Breakpoints := by
    intro bp hbp
    simp only [pm25Breakpoints, List.mem_cons, List.not_mem_nil, or_false] at hbp
    rcases hbp with rfl | rfl | rfl | rfl | rfl | rfl | rfl <;> norm_num
  have h10 : validTable pm10Breakpoints := by
    intro bp hbp
    simp only [pm10Breakpoints, List.mem_cons, List.not_mem_nil, or_false] at hbp
    rcases hbp with rfl | rfl | rfl | rfl | rfl | rfl | rfl <;> norm_num
  have b25 := aqiLoop_bounds (trunc a) pm25Breakpoints h25
  have b10 := aqiLoop_bounds (trunc b) pm10Breakpoints h10
  simp only [computeAQI, calculateAQI]
  split
  · exact b25
  · exact b10

/-- Claim C9: the truncation is idempotent. -/
theorem trunc_idempotent (x : ℚ) : trunc (trunc x) = trunc x := by
  simp only [trunc]
  rw [div_mul_cancel₀, Int.floor_intCast]
  norm_num

/-- Every tier of both tables starts at a non-negative concentration, so a
negative (truncated) concentration matches no tier. -/
lemma aqiLoop_of_neg (t : ℚ) (l : List AQIBreakpoint)
    (hl : ∀ bp ∈ l, 0 ≤ bp.ConcLow) (h : t < 0) : aqiLoop t l = 500 := by
  apply aqiLoop_of_forall_not
  intro bp hbp
  rintro ⟨h1, -⟩
  exact absurd (le_trans (hl bp hbp) h1) (not_le.mpr h)

/-- Claim C10: a negative concentration raises no error and is assigned no
low tier: the scan falls through and returns the saturation value 500 on
both tables. -/
theorem calculateAQI_negative_saturates (c : ℚ) (h : c < 0) :
    calculateAQI c pm25Breakpoints = 500 ∧ calculateAQI c pm10Breakpoints = 500 := by
  have ht : trunc c < 0 := lt_of_le_of_lt (trunc_le c) h
  constructor
  · simp only [calculateAQI]
    refine aqiLoop_of_neg _ _ ?_ ht
    intro bp hbp
    simp only [pm25Breakpoints, List.mem_cons, List.not_mem_nil, or_false] at hbp
    rcases hbp with rfl | rfl | rfl | rfl | rfl | rfl | rfl <;> norm_num
  · simp only [calculateAQI]
    refine aqiLoop_of_neg _ _ ?_ ht
    intro bp hbp
    simp only [pm10Breakpoints, List.mem_cons, List.not_mem_nil, or_false] at hbp
    rcases hbp with rfl | rfl | rfl | rfl | rfl | rfl | rfl <;> norm_num

/-- Witness for Claim C10 at c = -1. -/
theorem calculateAQI_negative_saturates_witness :
    (-1 : ℚ) < 0 ∧
    (calculateAQI (-1) pm25Breakpoints = 500 ∧
     calculateAQI (-1) pm10Breakpoints = 500) :=
  ⟨by norm_num, calculateAQI_negative_saturates (-1) (by norm_num)⟩
